import Mathlib

/-!
Verification of the hierarchical state-machine example of the
anymal-api-tests repository (package `state_machine_example`).

The repository contains the two example behaviors
`CalculateFibonacciSeries` (a leaf state delegating to a ROS action) and
`CalculateTwoFibonacciSeriesSequentially` (a composite state machine
running two such leaves in sequence), together with their headers and a
plugin test.  The `state_machine` engine library itself (the `State`,
`StateMachine`, `Factory`, `Settings` and `ActionClient` classes) is not
part of the repository; where its behavior decides a property it is
modelled from the specification, and each such definition says so in its
doc comment.

Machine integers: the `order` parameter is a C++ `int`; no arithmetic is
ever performed on it by the translated code (it is only stored, copied
and compared), so it is embedded as `Int` without overflow reduction.
-/

namespace StateMachineExample

/-- Outcome of executing a behavior.  Every state has at least
`success`, `preemption` and `failure` (custom outcomes are not used by
the example states). -/
inductive Outcome
  | success
  | preemption
  | failure
deriving DecidableEq, Repr

/-- A configuration parameter: `state_machine::Parameter{name, kind, value}`.
The example states only ever store `int`-kinded values, so the variant
payload is embedded as `Int`. -/
structure Parameter where
  name : String
  kind : String
  value : Int
deriving DecidableEq, Repr

/-- Modelled from the spec: `Settings` is an ordered sequence of named,
typed parameters (spec section 3; the `state_machine::Settings` container
implementation is not in the repository). -/
structure Settings where
  parameters : List Parameter
deriving DecidableEq, Repr

/-- Modelled from the spec: `Settings::addParameter` appends a parameter
to the ordered sequence. -/
def Settings.addParameter (s : Settings) (p : Parameter) : Settings :=
  ⟨s.parameters ++ [p]⟩

/-- Modelled from the spec: `Settings::parameterIsRegistered(name)` tells
whether a parameter of that name is present. -/
def Settings.parameterIsRegistered (s : Settings) (n : String) : Bool :=
  s.parameters.any fun p => p.name == n

/-- Modelled from the spec: `settings.getParameter(name).getValue().as<int>()`,
the value of the first parameter registered under `name`. -/
def Settings.getParameterValue (s : Settings) (n : String) : Option Int :=
  (s.parameters.find? fun p => p.name == n).map Parameter.value

/-- The empty settings sequence. -/
def Settings.empty : Settings := ⟨[]⟩

/-- Configuration state of the leaf behavior
`state_machine_example::CalculateFibonacciSeries`: the optional order
(`std::optional<int> order_`, unset after construction) and the nested
name used in validation messages (`getNestedName().toString()`). -/
structure CalculateFibonacciSeries where
  order_ : Option Int := none
  nestedName : String := "CalculateFibonacciSeries"
deriving DecidableEq, Repr

/-- `CalculateFibonacciSeries::setOrder`: `order_ = order;`. -/
def CalculateFibonacciSeries.setOrder (s : CalculateFibonacciSeries) (order : Int) :
    CalculateFibonacciSeries :=
  { s with order_ := some order }

/-- `CalculateFibonacciSeries::getOrder`: returns `order_`. -/
def CalculateFibonacciSeries.getOrder (s : CalculateFibonacciSeries) : Option Int :=
  s.order_

/-- `CalculateFibonacciSeries::saveSettingsImpl`: always stores the order
as a parameter, using 0 as default if the order has not been set
(`order_.value_or(0)`). -/
def CalculateFibonacciSeries.saveSettingsImpl (s : CalculateFibonacciSeries)
    (settings : Settings) : Settings :=
  settings.addParameter ⟨"order", "int", s.order_.getD 0⟩

/-- `CalculateFibonacciSeries::loadSettingsImpl`: if the parameter
`"order"` is registered in the settings, read and set it. -/
def CalculateFibonacciSeries.loadSettingsImpl (s : CalculateFibonacciSeries)
    (settings : Settings) : CalculateFibonacciSeries :=
  if settings.parameterIsRegistered "order" then
    match settings.getParameterValue "order" with
    | some v => { s with order_ := some v }
    | none => s
  else s

/-- `CalculateFibonacciSeries::getInconsistenciesImpl`: if the order has
never been set, report one inconsistency naming the state; otherwise the
list is empty. -/
def CalculateFibonacciSeries.getInconsistenciesImpl (s : CalculateFibonacciSeries) :
    List String :=
  if s.order_.isNone then
    ["The order of '" ++ s.nestedName ++ "' has not been set."]
  else []

/-- A freshly constructed leaf: `order_` unset. -/
def freshLeaf : CalculateFibonacciSeries := {}

/-! ## Mid-execution of the leaf and its delegated ROS action -/

/-- Terminal result of the delegated external action
(`stateMachineRos` action goal outcome).  The terminal results named by
the spec are succeeded, cancelled and faulted; a timeout on the action is
also surfaced as a terminal non-success result
(`ActionClient::execute` takes timeout arguments), as is rejection. -/
inductive ActionGoalOutcome
  | succeeded
  | cancelled
  | faulted
  | timedOut
  | rejected
deriving DecidableEq, Repr

/-- `state_machine_ros::actionGoalSucceeded`. -/
def actionGoalSucceeded : ActionGoalOutcome → Bool
  | .succeeded => true
  | _ => false

/-- `state_machine_ros::actionGoalCancelled`. -/
def actionGoalCancelled : ActionGoalOutcome → Bool
  | .cancelled => true
  | _ => false

/-- `state_machine_ros::toString` on an action goal outcome, used in
report messages. -/
def ActionGoalOutcome.describe : ActionGoalOutcome → String
  | .succeeded => "succeeded"
  | .cancelled => "cancelled"
  | .faulted => "faulted"
  | .timedOut => "timed out"
  | .rejected => "rejected"

/-- Report severity levels used by the leaf (`report::Level`). -/
inductive Level
  | ERROR
  | DEBUG
  | INFO
deriving DecidableEq, Repr

/-- A report entry added through the context's report interface; the
success entry additionally carries a value (`entry.value_`). -/
structure ReportEntry where
  level : Level
  message : String
  value : Option Int := none
deriving DecidableEq, Repr

/-- Observable result of one call to
`CalculateFibonacciSeries::runMidExecution`: the returned outcome, the
report entries added to the context's report interface (in order), and
how many goals were sent to the action client. -/
structure MidExecutionResult where
  outcome : Outcome
  reports : List ReportEntry
  goalsSent : Nat
deriving DecidableEq, Repr

/-- `CalculateFibonacciSeries::runMidExecution`, as a function of the
configured order, of the terminal result the action client's blocking
`execute(goal)` call returns for the single goal sent, and of the
sequence carried by the action result (used for the success report's
value: `result->sequence.empty() ? 0 : result->sequence.back()`).
If the order is unset, an ERROR entry is reported and `failure` is
returned without sending a goal; otherwise exactly one goal is sent and
the terminal action result is mapped onto the outcome:
succeeded to `success`, cancelled to `preemption`, anything else to
`failure`, each with a report entry. -/
def CalculateFibonacciSeries.runMidExecution (s : CalculateFibonacciSeries)
    (actionGoalOutcome : ActionGoalOutcome) (resultSequence : List Int) :
    MidExecutionResult :=
  match s.order_ with
  | none =>
      { outcome := .failure,
        reports := [⟨.ERROR,
          "Failed to calculate Fibonacci series: The order has not been set.", none⟩],
        goalsSent := 0 }
  | some order =>
      let startEntry : ReportEntry :=
        ⟨.DEBUG, "Calculating Fibonacci series of order '" ++ toString order ++ "' ...", none⟩
      if actionGoalSucceeded actionGoalOutcome then
        { outcome := .success,
          reports := [startEntry,
            ⟨.INFO, "Successfully calculated Fibonacci series of order '" ++
              toString order ++ "'.", some (resultSequence.getLastD 0)⟩],
          goalsSent := 1 }
      else if actionGoalCancelled actionGoalOutcome then
        { outcome := .preemption,
          reports := [startEntry,
            ⟨.DEBUG, "Calculating Fibonacci series of order '" ++ toString order ++
              "' was cancelled: " ++ actionGoalOutcome.describe, none⟩],
          goalsSent := 1 }
      else
        { outcome := .failure,
          reports := [startEntry,
            ⟨.ERROR, "Failed to calculate Fibonacci series of order '" ++ toString order ++
              "': " ++ actionGoalOutcome.describe, none⟩],
          goalsSent := 1 }

/-! ## The action client and preemption -/

/-- The part of the ROS action client's state that decides preemption:
whether `cancelExecution()` has been called on it.  The client is created
in `runPreExecution` (with `cancelRequested := false`) and destroyed in
`runPostExecution`. -/
structure ActionClient where
  cancelRequested : Bool := false
deriving DecidableEq, Repr

/-- `ActionClient::cancelExecution()`: request cancellation of the goal. -/
def ActionClient.cancelExecution (c : ActionClient) : ActionClient :=
  { c with cancelRequested := true }

/-- `CalculateFibonacciSeries::onPreemptionRequest`:
`if (actionClient_) { actionClient_->cancelExecution(); }` — when a
client exists (the state is between pre- and post-execution) its goal is
cancelled; otherwise nothing happens. -/
def CalculateFibonacciSeries.onPreemptionRequest (actionClient : Option ActionClient) :
    Option ActionClient :=
  actionClient.map ActionClient.cancelExecution

/-- Modelled from the spec: the terminal result the blocking
`ActionClient::execute(goal)` call reports (the `ActionClient`
implementation is not in the repository).  Spec section 4.5: ROS action
goals can be cancelled, and a goal whose cancellation has been requested
before its terminal result is observed terminates as cancelled;
otherwise the action's own terminal result (`nominal`) is observed. -/
def ActionClient.observedResult (c : ActionClient) (nominal : ActionGoalOutcome) :
    ActionGoalOutcome :=
  if c.cancelRequested then .cancelled else nominal

/-! ## Reader/writer lock discipline on the feedback snapshot -/

/-- Which side of the reader/writer lock (`std::shared_mutex
actionFeedbackMutex_`) an access holds: `std::shared_lock` or
`std::unique_lock`. -/
inductive LockMode
  | sharedSide
  | exclusiveSide
deriving DecidableEq, Repr

/-- Whether an access reads or writes the snapshot. -/
inductive AccessKind
  | read
  | write
deriving DecidableEq, Repr

/-- One access to the shared feedback snapshot `actionFeedback_`. -/
structure FeedbackAccess where
  site : String
  mode : LockMode
  kind : AccessKind
deriving DecidableEq, Repr

/-- The three accesses to `actionFeedback_` in the source, each with the
lock it takes around the access:
* `runPreExecution` resets the snapshot under `std::shared_lock lock(actionFeedbackMutex_)`;
* the feedback callback assigns the snapshot under `std::unique_lock lock(actionFeedbackMutex_)`;
* `getProgressImpl` reads the snapshot under `std::shared_lock lock(actionFeedbackMutex_)`. -/
def actionFeedbackAccesses : List FeedbackAccess :=
  [⟨"runPreExecution: actionFeedback_.reset()", .sharedSide, .write⟩,
   ⟨"feedback callback: actionFeedback_ = feedback", .exclusiveSide, .write⟩,
   ⟨"getProgressImpl: read actionFeedback_", .sharedSide, .read⟩]

/-- The single-writer snapshot discipline the spec requires of one
access: a write holds the exclusive side of the lock (a read may hold
either side). -/
def holdsWriterDiscipline (a : FeedbackAccess) : Bool :=
  match a.kind with
  | .write => a.mode == LockMode.exclusiveSide
  | .read => true

/-! ## The composite `CalculateTwoFibonacciSeriesSequentially` -/

/-- A child held by a composite behind a polymorphic `StateBase`
pointer: either a `CalculateFibonacciSeries` leaf, or a state of some
other concrete type (whose `dynamic_cast` to
`CalculateFibonacciSeries*` yields a null pointer). -/
inductive ChildState
  | calculateFibonacciSeries (s : CalculateFibonacciSeries)
  | otherState (type : String)
deriving DecidableEq, Repr

/-- Result of a C++ computation in the embedding: a value, or the
undefined behavior of dereferencing a null pointer (as when a failed
`dynamic_cast` result is used without a null check).  `explicitError` is
the error channel a checked typed accessor would use; the translated
composite code never produces it. -/
inductive CppResult (α : Type)
  | ok (a : α)
  | nullPointerDereference
  | explicitError (message : String)
deriving DecidableEq, Repr

/-- `name1_`, the composite's first child name. -/
def name1_ : String := "CalculateFibonacciSeries1"

/-- `name2_`, the composite's second child name. -/
def name2_ : String := "CalculateFibonacciSeries2"

/-- Configuration state of the composite
`state_machine_example::CalculateTwoFibonacciSeriesSequentially`: its
named children (the composite's owned name-to-child mapping). -/
structure CalculateTwoFibonacciSeriesSequentially where
  children : List (String × ChildState)
deriving DecidableEq, Repr

/-- `StateMachine::getState(name)`: look the child up by name
(null pointer, i.e. `none`, when no child of that name exists). -/
def CalculateTwoFibonacciSeriesSequentially.getState
    (m : CalculateTwoFibonacciSeriesSequentially) (n : String) : Option ChildState :=
  (m.children.find? fun p => p.1 == n).map Prod.snd

/-- `dynamic_cast<CalculateFibonacciSeries*>`: `none` is the null
pointer the cast yields when the child is absent or of another concrete
type. -/
def dynamicCastCalculateFibonacciSeries : Option ChildState → Option CalculateFibonacciSeries
  | some (.calculateFibonacciSeries s) => some s
  | _ => none

/-- Store an updated leaf back under its name in the composite's child
mapping (the C++ mutation of the child through the casted pointer). -/
def CalculateTwoFibonacciSeriesSequentially.setChild
    (m : CalculateTwoFibonacciSeriesSequentially) (n : String)
    (s : CalculateFibonacciSeries) : CalculateTwoFibonacciSeriesSequentially :=
  ⟨m.children.map fun p =>
    if p.1 == n then (p.1, ChildState.calculateFibonacciSeries s) else p⟩

/-- `CalculateTwoFibonacciSeriesSequentially::setOrder`:
`dynamic_cast<CalculateFibonacciSeries*>(getState(name1_))->setOrder(order)`
and the same for `name2_`.  The cast result is dereferenced without a
null check, so a missing or wrong-typed child is a null-pointer
dereference. -/
def CalculateTwoFibonacciSeriesSequentially.setOrder
    (m : CalculateTwoFibonacciSeriesSequentially) (order : Int) :
    CppResult CalculateTwoFibonacciSeriesSequentially :=
  match dynamicCastCalculateFibonacciSeries (m.getState name1_) with
  | none => .nullPointerDereference
  | some s1 =>
      let m1 := m.setChild name1_ (s1.setOrder order)
      match dynamicCastCalculateFibonacciSeries (m1.getState name2_) with
      | none => .nullPointerDereference
      | some s2 => .ok (m1.setChild name2_ (s2.setOrder order))

/-- `CalculateTwoFibonacciSeriesSequentially::getOrder`: gets the order
from the first child state (again through an unchecked
`dynamic_cast`). -/
def CalculateTwoFibonacciSeriesSequentially.getOrder
    (m : CalculateTwoFibonacciSeriesSequentially) : CppResult (Option Int) :=
  match dynamicCastCalculateFibonacciSeries (m.getState name1_) with
  | none => .nullPointerDereference
  | some s1 => .ok s1.getOrder

/-- `CalculateTwoFibonacciSeriesSequentially::saveSettingsImpl`: if the
order has been set, store it in the settings. -/
def CalculateTwoFibonacciSeriesSequentially.saveSettingsImpl
    (m : CalculateTwoFibonacciSeriesSequentially) (settings : Settings) :
    CppResult Settings :=
  match m.getOrder with
  | .ok (some v) => .ok (settings.addParameter ⟨"order", "int", v⟩)
  | .ok none => .ok settings
  | .nullPointerDereference => .nullPointerDereference
  | .explicitError e => .explicitError e

/-- `CalculateTwoFibonacciSeriesSequentially::loadSettingsImpl`: if the
parameter `"order"` is registered in the settings, read it and forward
it to both children via `setOrder`. -/
def CalculateTwoFibonacciSeriesSequentially.loadSettingsImpl
    (m : CalculateTwoFibonacciSeriesSequentially) (settings : Settings) :
    CppResult CalculateTwoFibonacciSeriesSequentially :=
  if settings.parameterIsRegistered "order" then
    match settings.getParameterValue "order" with
    | some v => m.setOrder v
    | none => .ok m
  else .ok m

/-- The composite as `constructImpl` builds it: the two leaf children
`CalculateFibonacciSeries1` and `CalculateFibonacciSeries2`, in
insertion order. -/
def mkComposite (s1 s2 : CalculateFibonacciSeries) :
    CalculateTwoFibonacciSeriesSequentially :=
  ⟨[(name1_, .calculateFibonacciSeries s1), (name2_, .calculateFibonacciSeries s2)]⟩

/-! ## The transition engine -/

/-- An entry of a child's transition map: either the name of the sibling
to execute next, or a terminal outcome returned to the composite's own
caller. -/
inductive TransitionTarget
  | toState (n : String)
  | terminal (o : Outcome)
deriving DecidableEq, Repr

/-- Static definition of a composite state machine: children in
insertion order, each child's outcome-to-target transition map, the
default initial child, and the restart policy. -/
structure MachineDef where
  states : List String
  transitions : List (String × List (Outcome × TransitionTarget))
  defaultInitialState : String
  restartOnExecution : Bool
deriving DecidableEq, Repr

/-- The machine registered by
`CalculateTwoFibonacciSeriesSequentially::constructImpl`:
child 1 transitions success to child 2, preemption to terminal
preemption, failure to terminal failure; child 2 transitions success to
terminal success, preemption to terminal preemption, failure to terminal
failure; child 1 is the default initial state; restart on execution. -/
def calculateTwoFibonacciSeriesMachine : MachineDef :=
  { states := [name1_, name2_],
    transitions :=
      [(name1_, [(.success, .toState name2_),
                 (.preemption, .terminal .preemption),
                 (.failure, .terminal .failure)]),
       (name2_, [(.success, .terminal .success),
                 (.preemption, .terminal .preemption),
                 (.failure, .terminal .failure)])],
    defaultInitialState := name1_,
    restartOnExecution := true }

/-- Look up `(child, outcome)` in the machine's transition table. -/
def MachineDef.lookupTransition (m : MachineDef) (s : String) (o : Outcome) :
    Option TransitionTarget :=
  ((m.transitions.find? fun p => p.1 == s).map Prod.snd).bind
    fun ts => (ts.find? fun q => q.1 == o).map Prod.snd

/-- Modelled from the spec: the composite execution algorithm (spec
section 4.2; the `StateMachine` engine implementation is not in the
repository).  Maintain the current child; execute it to obtain its
outcome (`childOutcome`); look `(current child, outcome)` up in the
transition table; a sibling entry makes that sibling current and
continues, a terminal entry is returned to the composite's caller; a
missing entry is a structural defect treated as a fatal `failure`.
`fuel` bounds the number of child executions so the walk is total;
`none` means the fuel ran out.  Returns the terminal outcome together
with the list of children executed, in execution order. -/
def MachineDef.run (m : MachineDef) (childOutcome : String → Outcome) :
    Nat → String → Option (Outcome × List String)
  | 0, _ => none
  | fuel + 1, current =>
      match m.lookupTransition current (childOutcome current) with
      | some (.toState n) =>
          (m.run childOutcome fuel n).map fun r => (r.1, current :: r.2)
      | some (.terminal t) => some (t, [current])
      | none => some (.failure, [current])

/-- Modelled from the spec: one `execute()` call of a composite,
starting at the default initial child (the machine restarts on
execution).  A walk through the table executes each child at most once
here, so `states.length` steps of fuel suffice. -/
def MachineDef.execute (m : MachineDef) (childOutcome : String → Outcome) :
    Option (Outcome × List String) :=
  m.run childOutcome m.states.length m.defaultInitialState

/-! ## The factory -/

/-- The part of a constructed `StateBase` instance the factory contract
speaks about: its type and its name. -/
structure StateBase where
  type : String
  name : String
deriving DecidableEq, Repr

/-- `StateBase::getType`. -/
def StateBase.getType (s : StateBase) : String := s.type

/-- `StateBase::getName`. -/
def StateBase.getName (s : StateBase) : String := s.name

/-- Modelled from the spec: the `state_machine::Factory` is a
type-name-keyed registry of zero-argument constructors (spec sections
4.3 and 9; the `Factory` implementation is not in the repository).  Its
observable registry is the list of registered state types. -/
structure Factory where
  registeredTypes : List String
deriving DecidableEq, Repr

/-- Modelled from the spec: `Factory::createState(type, name)` looks up
the constructor registered under `type`, builds an instance carrying the
requested type and name and injects the context; it returns no instance
when `type` is unregistered. -/
def Factory.createState (f : Factory) (type n : String) : Option StateBase :=
  if f.registeredTypes.contains type then some ⟨type, n⟩ else none

/-- The factory of the example plugin test, with the repository's two
state plugins registered. -/
def exampleFactory : Factory :=
  ⟨["state_machine_example::CalculateFibonacciSeries",
    "state_machine_example::CalculateTwoFibonacciSeriesSequentially"]⟩

/-! ## Effects performed by the leaf's lifecycle hooks -/

/-- The side effects the leaf's lifecycle hooks perform, by kind:
static configuration calls, a ROS parameter read, and the ROS interfaces
managed by pre-execution and post-execution. -/
inductive BehaviorEffect
  | setOutcomes (outcomes : List Outcome)
  | setNominalOutcome (o : Outcome)
  | readRosParam (key : String)
  | createActionClient (topic : String)
  | destroyActionClient
  | sendActionGoal (topic : String)
deriving DecidableEq, Repr

/-- The effect trace of `CalculateFibonacciSeries::constructImpl` in
source order: declare the outcomes, set the nominal outcome, and read
the action topic from the ROS parameter server via
`param_io::getParam(getNodeHandle(), ...)`. -/
def constructImplEffects : List BehaviorEffect :=
  [.setOutcomes [.success],
   .setNominalOutcome .success,
   .readRosParam "/state_machine_example/calculate_fibonacci_series/action"]

/-- The effect trace of `CalculateFibonacciSeries::runPreExecution` (its
external effects): create the ROS action client on the configured
topic. -/
def runPreExecutionEffects (topic : String) : List BehaviorEffect :=
  [.createActionClient topic]

/-- Whether an effect opens an external connection: creating the ROS
action client (which connects to the action server) or sending it a
goal does; configuration calls and the parameter read do not open a
connection. -/
def opensExternalConnection : BehaviorEffect → Bool
  | .createActionClient _ => true
  | .sendActionGoal _ => true
  | _ => false

/-- Whether an effect communicates with another process (performs I/O
beyond the behavior's own memory): reading a ROS parameter queries the
ROS parameter server, and creating an action client or sending a goal
talks to the action server.  Setting outcomes is in-memory
configuration. -/
def communicatesExternally : BehaviorEffect → Bool
  | .readRosParam _ => true
  | .createActionClient _ => true
  | .sendActionGoal _ => true
  | _ => false

/-- Whether a `CppResult` is the explicit error a checked typed accessor
would report. -/
def CppResult.isExplicitError {α : Type} : CppResult α → Bool
  | .explicitError _ => true
  | _ => false

/-- A validation message names the order parameter: the word "order"
occurs in it. -/
def mentionsOrder (s : String) : Prop :=
  ∃ l r, s.data = l ++ ("order").data ++ r

/-! ## Theorems -/

/-- C1: Settings round trip.  For every integer `v`, after `setOrder(v)`
on one instance (leaf `CalculateFibonacciSeries` or composite
`CalculateTwoFibonacciSeriesSequentially`), a second instance of the
same type on which `loadSettings` is applied to the first instance's
`saveSettings` output has `getOrder() == v`. -/
theorem c1_settings_round_trip (v : Int) (x y a1 a2 b1 b2 : CalculateFibonacciSeries) :
    (y.loadSettingsImpl ((x.setOrder v).saveSettingsImpl Settings.empty)).getOrder = some v
    ∧ ∃ mset msaved mloaded,
        (mkComposite a1 a2).setOrder v = CppResult.ok mset
        ∧ mset.saveSettingsImpl Settings.empty = CppResult.ok msaved
        ∧ (mkComposite b1 b2).loadSettingsImpl msaved = CppResult.ok mloaded
        ∧ mloaded.getOrder = CppResult.ok (some v) :=
  ⟨rfl,
   mkComposite (a1.setOrder v) (a2.setOrder v),
   ⟨[⟨"order", "int", v⟩]⟩,
   mkComposite (b1.setOrder v) (b2.setOrder v),
   rfl, rfl, rfl, rfl⟩

/-- C10: `saveSettings` on a leaf whose order is unset still emits an
`"order"` parameter with value 0; loading that output into a fresh leaf
makes `getOrder()` return `some 0` and empties its inconsistency
list. -/
theorem c10_unset_order_saved_as_zero :
    freshLeaf.saveSettingsImpl Settings.empty = ⟨[⟨"order", "int", 0⟩]⟩
    ∧ (freshLeaf.loadSettingsImpl (freshLeaf.saveSettingsImpl Settings.empty)).getOrder = some 0
    ∧ (freshLeaf.loadSettingsImpl
        (freshLeaf.saveSettingsImpl Settings.empty)).getInconsistenciesImpl = [] :=
  ⟨rfl, rfl, rfl⟩

/-- C7: `getInconsistencies()` on a `CalculateFibonacciSeries` whose
order has never been set returns a non-empty list (exactly the message
naming the state's order); the message names the missing order
parameter; after the order is configured by `setOrder` or by
`loadSettings`, the list is empty. -/
theorem c7_validation_of_unconfigured_leaf (v : Int) (nested : String) :
    ({ order_ := none, nestedName := nested } :
        CalculateFibonacciSeries).getInconsistenciesImpl
      = ["The order of '" ++ nested ++ "' has not been set."]
    ∧ mentionsOrder ("The order of '" ++ nested ++ "' has not been set.")
    ∧ (({ order_ := none, nestedName := nested } :
        CalculateFibonacciSeries).setOrder v).getInconsistenciesImpl = []
    ∧ (({ order_ := none, nestedName := nested } :
        CalculateFibonacciSeries).loadSettingsImpl
          (Settings.empty.addParameter ⟨"order", "int", v⟩)).getInconsistenciesImpl = [] :=
  ⟨rfl,
   ⟨"The ".data, " of '".data ++ nested.data ++ "' has not been set.".data, rfl⟩,
   rfl, rfl⟩

/-- C2: Sequential composition.  For the composite machine registered by
`CalculateTwoFibonacciSeriesSequentially::constructImpl` (child 1
success to child 2, child 1 preemption and failure terminal, child 2
success terminal success, child 2 preemption and failure terminal, child
1 default initial): if child 1 returns success and child 2 returns
success, `execute()` returns success and both children were executed
exactly once (in order); if child 1 returns failure, `execute()` returns
failure and child 2 is never executed. -/
theorem c2_sequential_composition (childOutcome : String → Outcome) :
    (childOutcome name1_ = Outcome.success → childOutcome name2_ = Outcome.success →
      calculateTwoFibonacciSeriesMachine.execute childOutcome
        = some (Outcome.success, [name1_, name2_]))
    ∧ (childOutcome name1_ = Outcome.failure →
      calculateTwoFibonacciSeriesMachine.execute childOutcome
        = some (Outcome.failure, [name1_])) := by
  constructor
  · intro h1 h2
    have e1 : childOutcome "CalculateFibonacciSeries1" = Outcome.success := h1
    have e2 : childOutcome "CalculateFibonacciSeries2" = Outcome.success := h2
    simp [MachineDef.execute, MachineDef.run, MachineDef.lookupTransition,
      calculateTwoFibonacciSeriesMachine, e1, e2, List.find?, name1_, name2_]
  · intro h1
    have e1 : childOutcome "CalculateFibonacciSeries1" = Outcome.failure := h1
    simp only [MachineDef.execute, MachineDef.run, MachineDef.lookupTransition,
      calculateTwoFibonacciSeriesMachine, e1, List.find?, name1_, name2_]
    rfl

/-- Witness for C2 at the two concrete child behaviors: all children
succeed, and all children fail. -/
theorem c2_sequential_composition_witness :
    calculateTwoFibonacciSeriesMachine.execute (fun _ => Outcome.success)
      = some (Outcome.success, [name1_, name2_])
    ∧ calculateTwoFibonacciSeriesMachine.execute (fun _ => Outcome.failure)
      = some (Outcome.failure, [name1_]) :=
  ⟨(c2_sequential_composition (fun _ => Outcome.success)).1 rfl rfl,
   (c2_sequential_composition (fun _ => Outcome.failure)).2 rfl⟩

/-- C3: External action outcome mapping.  For every execution of the
leaf with the order set, `runMidExecution` sends exactly one goal and
maps the terminal action result deterministically: succeeded yields
`success`, cancelled yields `preemption`, every other terminal result
(fault, timeout, rejection) yields `failure`; and report entries
accompany the outcome. -/
theorem c3_action_outcome_mapping (s : CalculateFibonacciSeries) (v : Int)
    (h : s.order_ = some v) (r : ActionGoalOutcome) (resultSequence : List Int) :
    (s.runMidExecution r resultSequence).goalsSent = 1
    ∧ (actionGoalSucceeded r = true →
        (s.runMidExecution r resultSequence).outcome = Outcome.success)
    ∧ (actionGoalCancelled r = true →
        (s.runMidExecution r resultSequence).outcome = Outcome.preemption)
    ∧ (actionGoalSucceeded r = false → actionGoalCancelled r = false →
        (s.runMidExecution r resultSequence).outcome = Outcome.failure)
    ∧ (s.runMidExecution r resultSequence).reports ≠ [] := by
  cases r <;>
    simp [CalculateFibonacciSeries.runMidExecution, h,
      actionGoalSucceeded, actionGoalCancelled]

/-- Witness for C3 at order 5: a succeeded action yields `success` with
one goal sent, and a timed-out action yields `failure`. -/
theorem c3_action_outcome_mapping_witness :
    ((freshLeaf.setOrder 5).runMidExecution ActionGoalOutcome.succeeded [1, 1, 2]).goalsSent = 1
    ∧ ((freshLeaf.setOrder 5).runMidExecution
        ActionGoalOutcome.succeeded [1, 1, 2]).outcome = Outcome.success
    ∧ ((freshLeaf.setOrder 5).runMidExecution
        ActionGoalOutcome.timedOut []).outcome = Outcome.failure :=
  ⟨(c3_action_outcome_mapping (freshLeaf.setOrder 5) 5 rfl ActionGoalOutcome.succeeded [1, 1, 2]).1,
   (c3_action_outcome_mapping
      (freshLeaf.setOrder 5) 5 rfl ActionGoalOutcome.succeeded [1, 1, 2]).2.1 rfl,
   (c3_action_outcome_mapping
      (freshLeaf.setOrder 5) 5 rfl ActionGoalOutcome.timedOut []).2.2.2.1 rfl rfl⟩

/-- C4, counterexample to the claim as stated: on a leaf whose order was
never set, a preemption request during execution (the client's goal is
cancelled, so its observed terminal result is `cancelled`) still makes
`runMidExecution` return `failure`, not `preemption` — the unset-order
check fires before the action result is consulted. -/
theorem c4_preemption_counterexample :
    CalculateFibonacciSeries.onPreemptionRequest (some { cancelRequested := false })
      = some { cancelRequested := true }
    ∧ (freshLeaf.runMidExecution
        (ActionClient.observedResult { cancelRequested := true } ActionGoalOutcome.faulted)
        []).outcome = Outcome.failure := by
  decide

/-- C4, amended: for every execution of the leaf whose order is set, if
a preemption request (`onPreemptionRequest`, which cancels the action
client's goal) is issued while `runMidExecution` is in flight, the
observed terminal action result is `cancelled` and `execute()` returns
outcome `preemption`, never `failure`. -/
theorem c4_preemption_with_order_set (s : CalculateFibonacciSeries) (v : Int)
    (h : s.order_ = some v) (c c' : ActionClient)
    (hreq : CalculateFibonacciSeries.onPreemptionRequest (some c) = some c')
    (nominal : ActionGoalOutcome) (resultSequence : List Int) :
    (s.runMidExecution (c'.observedResult nominal) resultSequence).outcome = Outcome.preemption
    ∧ (s.runMidExecution (c'.observedResult nominal) resultSequence).outcome
        ≠ Outcome.failure := by
  have hc : c' = c.cancelExecution := by
    simpa [CalculateFibonacciSeries.onPreemptionRequest] using hreq.symm
  subst hc
  simp [ActionClient.observedResult, ActionClient.cancelExecution,
    CalculateFibonacciSeries.runMidExecution, h, actionGoalSucceeded, actionGoalCancelled]

/-- Witness for the amended C4 at order 3: a preemption request issued
against the in-flight client makes the execution return `preemption`
even when the action would otherwise have faulted. -/
theorem c4_preemption_with_order_set_witness :
    ((freshLeaf.setOrder 3).runMidExecution
      (ActionClient.observedResult { cancelRequested := true } ActionGoalOutcome.faulted)
      []).outcome = Outcome.preemption :=
  (c4_preemption_with_order_set (freshLeaf.setOrder 3) 3 rfl
    { cancelRequested := false } { cancelRequested := true } rfl
    ActionGoalOutcome.faulted []).1

/-- C5: the single-writer snapshot discipline is violated by the code:
the write `actionFeedback_.reset()` in `runPreExecution` holds only the
shared side of `actionFeedbackMutex_` (`std::shared_lock`), while the
discipline — and the feedback callback's own write — require the
exclusive side. -/
theorem c5_writer_discipline_violated :
    actionFeedbackAccesses.all holdsWriterDiscipline = false
    ∧ (⟨"runPreExecution: actionFeedback_.reset()",
        LockMode.sharedSide, AccessKind.write⟩ : FeedbackAccess) ∈ actionFeedbackAccesses
    ∧ holdsWriterDiscipline
        ⟨"runPreExecution: actionFeedback_.reset()",
         LockMode.sharedSide, AccessKind.write⟩ = false
    ∧ holdsWriterDiscipline
        ⟨"feedback callback: actionFeedback_ = feedback",
         LockMode.exclusiveSide, AccessKind.write⟩ = true
    ∧ holdsWriterDiscipline
        ⟨"getProgressImpl: read actionFeedback_",
         LockMode.sharedSide, AccessKind.read⟩ = true := by
  decide

/-- C6: Factory contract.  For every registered `StateType`,
`createState(type, name)` returns an instance whose `getType()` equals
the requested type and whose `getName()` equals the requested name; for
an unregistered type it returns no instance. -/
theorem c6_factory_contract (f : Factory) (type n : String) :
    (f.registeredTypes.contains type = true →
      ∃ s, f.createState type n = some s ∧ s.getType = type ∧ s.getName = n)
    ∧ (f.registeredTypes.contains type = false → f.createState type n = none) := by
  constructor
  · intro h
    simp at h
    exact ⟨⟨type, n⟩, by simp [Factory.createState, h], rfl, rfl⟩
  · intro h
    simp at h
    simp [Factory.createState, h]

/-- Witness for C6 on the example plugin factory: the registered leaf
type is constructed with matching type and name, and an unregistered
type yields no instance. -/
theorem c6_factory_contract_witness :
    (∃ s, exampleFactory.createState
        "state_machine_example::CalculateFibonacciSeries" "MyState" = some s
      ∧ s.getType = "state_machine_example::CalculateFibonacciSeries"
      ∧ s.getName = "MyState")
    ∧ exampleFactory.createState "state_machine_example::NotRegistered" "MyState" = none :=
  ⟨(c6_factory_contract exampleFactory
      "state_machine_example::CalculateFibonacciSeries" "MyState").1 (by decide),
   (c6_factory_contract exampleFactory
      "state_machine_example::NotRegistered" "MyState").2 (by decide)⟩

/-- C8, counterexample to the claim as stated: `constructImpl` does
communicate with another process — it reads the action topic from the
ROS parameter server (`param_io::getParam`), an effect classified as
I/O. -/
theorem c8_construction_counterexample :
    constructImplEffects.any communicatesExternally = true
    ∧ BehaviorEffect.readRosParam
        "/state_machine_example/calculate_fibonacci_series/action" ∈ constructImplEffects := by
  decide

/-- C8, amended: construction performs only configuration and opens no
external connection — no effect of `constructImpl` opens a connection,
and its only externally-communicating effect is the parameter-server
read; the action client connection is opened only by `runPreExecution`;
and a constructed, never-executed leaf can be validated
(`getInconsistencies` is a pure function of its configuration). -/
theorem c8_construction_opens_no_connection :
    constructImplEffects.all (fun e => !opensExternalConnection e) = true
    ∧ constructImplEffects.filter communicatesExternally
        = [BehaviorEffect.readRosParam
            "/state_machine_example/calculate_fibonacci_series/action"]
    ∧ (∀ topic, (runPreExecutionEffects topic).any opensExternalConnection = true)
    ∧ freshLeaf.getInconsistenciesImpl
        = ["The order of 'CalculateFibonacciSeries' has not been set."] :=
  ⟨by decide, by decide, fun _ => rfl, rfl⟩

/-- C9, counterexample to the claim as stated: recovering a child of the
wrong concrete type (or a missing child) does not produce an explicit
lookup/type-mismatch error — the composite dereferences the null result
of the failed `dynamic_cast`, which is a null-pointer dereference. -/
theorem c9_typed_access_counterexample :
    CalculateTwoFibonacciSeriesSequentially.setOrder
      ⟨[(name1_, ChildState.otherState "SomeOtherState"),
        (name2_, ChildState.otherState "SomeOtherState")]⟩ 5
      = CppResult.nullPointerDereference
    ∧ CalculateTwoFibonacciSeriesSequentially.getOrder
        (⟨[]⟩ : CalculateTwoFibonacciSeriesSequentially)
      = CppResult.nullPointerDereference := by
  decide

/-- C9, amended: the composite recovers its children through unchecked
`dynamic_cast`s — on the well-formed composite (both leaf children
present) `setOrder` forwards the order to both children and `getOrder`
reads the first child, while a missing or wrong-typed child leads to a
null-pointer dereference (undefined behavior); no explicit
lookup/type-mismatch error is ever produced. -/
theorem c9_unchecked_downcast (s1 s2 : CalculateFibonacciSeries) (v : Int) (t : String) :
    (mkComposite s1 s2).setOrder v
      = CppResult.ok (mkComposite (s1.setOrder v) (s2.setOrder v))
    ∧ (mkComposite s1 s2).getOrder = CppResult.ok s1.getOrder
    ∧ CalculateTwoFibonacciSeriesSequentially.setOrder
        ⟨[(name1_, ChildState.otherState t), (name2_, ChildState.otherState t)]⟩ v
      = CppResult.nullPointerDereference
    ∧ CalculateTwoFibonacciSeriesSequentially.setOrder
        (⟨[]⟩ : CalculateTwoFibonacciSeriesSequentially) v
      = CppResult.nullPointerDereference
    ∧ (∀ m : CalculateTwoFibonacciSeriesSequentially,
        (m.setOrder v).isExplicitError = false) := by
  refine ⟨rfl, rfl, rfl, rfl, ?_⟩
  intro m
  unfold CalculateTwoFibonacciSeriesSequentially.setOrder
  rcases h1 : dynamicCastCalculateFibonacciSeries (m.getState name1_) with _ | s1
  · simp [h1, CppResult.isExplicitError]
  · rcases h2 : dynamicCastCalculateFibonacciSeries
        ((m.setChild name1_ (s1.setOrder v)).getState name2_) with _ | s2
    · simp [h1, h2, CppResult.isExplicitError]
    · simp [h1, h2, CppResult.isExplicitError]

end StateMachineExample
